import Mathlib

/-!
# Stratus Red Team Randomizer — verification of the run-lifecycle core

Shallow embedding of `stratus_randomizer.py` (the full randomizer) and
`randomize.py` (the minimal randomizer).  External collaborators (the AWS
identity query, the technique catalog query, the warmup / detonate / revert /
cleanup invocations, the clock, the random source, the lock primitive and the
persisted files) are modelled as explicit inputs; the orchestrator functions
are translated statement by statement from the Python source and return the
observable outcome: the exit code, the sequence of persisted record versions,
the lock interactions and the final history state.
-/

namespace Stratus

/-- The status values of `RunStatus` in the source (`RunStatus.STARTED.value`
etc. are these strings). -/
def statusStarted : String := "started"

def statusWarmupComplete : String := "warmup_complete"

def statusDetonated : String := "detonated"

def statusCleaned : String := "cleaned"

def statusFailed : String := "failed"

/-- `RunMode.TRAIN.value` in the source. -/
def modeTrain : String := "train"

/-- `RunMode.VALIDATE.value` in the source. -/
def modeValidate : String := "validate"

/-- A technique as parsed by `get_techniques`: a dict with `id` and `name`. -/
structure Technique where
  id : String
  name : String
deriving DecidableEq, Repr

/-- The `RunRecord` dataclass.  Timestamps are abstract clock readings
(`now_iso()` results), modelled as natural numbers handed out by the run's
clock. -/
structure RunRecord where
  run_id : String
  technique : String
  account : String
  region : String
  mode : String
  tactic_filter : Option String
  started_at : Nat
  status : String
  warmup_at : Option Nat := none
  detonated_at : Option Nat := none
  cleaned_at : Option Nat := none
  error : Option String := none
deriving DecidableEq, Repr

/-- Python's `l[-k:]` slice on a list.  For `k = 0` this is `l[0:]`, i.e. the
whole list (Python's negative-zero slice quirk); for `k > 0` it is the last
`min k (length l)` elements. -/
def pySliceLast {α : Type} (l : List α) (k : Nat) : List α :=
  if k = 0 then l else l.drop (l.length - k)

/-- `random.choice(l)` with the random source abstracted to a natural number
`r`: the choice is the element at index `r % l.length`.  Empty lists give
`none` (Python raises `IndexError`; callers establish non-emptiness). -/
def pyChoice {α : Type} (l : List α) (r : Nat) : Option α :=
  l.get? (r % l.length)

/-- `save_history(history, max_size)`: the list persisted to the history file
is `history[-max_size:]`. -/
def save_history (history : List String) (max_size : Nat := 20) : List String :=
  pySliceLast history max_size

/-- The `candidates` local of `select_technique`: when `avoid_recent` is set,
the catalog filtered against the set of the last `recent_count` history
entries, falling back to the whole catalog when the filter empties it. -/
def candidate_techniques (techniques : List Technique) (avoid_recent : Bool)
    (recent_count : Nat) (history : List String) : List Technique :=
  if avoid_recent then
    let recent := pySliceLast history recent_count
    let cs := techniques.filter (fun t => !(recent.contains t.id))
    if cs.isEmpty then techniques else cs
  else techniques

/-- `select_technique(techniques, avoid_recent, recent_count)`.
`history` is the content of the history file as read by the internal
`load_history()` call (an empty list when the file is absent or corrupt);
`rand` abstracts the `random.choice` source.  `Except.error` is the
`ValueError("No techniques available")` raised on an empty catalog. -/
def select_technique (techniques : List Technique) (avoid_recent : Bool)
    (recent_count : Nat) (history : List String) (rand : Nat) :
    Except String Technique :=
  if techniques.isEmpty then .error "No techniques available"
  else
    match pyChoice (candidate_techniques techniques avoid_recent recent_count history) rand with
    | some t => .ok t
    | none => .error "No techniques available"

instance {ε α : Type} [DecidableEq ε] [DecidableEq α] : DecidableEq (Except ε α) := fun a b =>
  match a, b with
  | .error e, .error f =>
    if h : e = f then .isTrue (by rw [h]) else .isFalse (fun hc => h (Except.error.inj hc))
  | .ok x, .ok y =>
    if h : x = y then .isTrue (by rw [h]) else .isFalse (fun hc => h (Except.ok.inj hc))
  | .error _, .ok _ => .isFalse (fun hc => Except.noConfusion hc)
  | .ok _, .error _ => .isFalse (fun hc => Except.noConfusion hc)

/-- Digit-string parsing used by Python's `int(str)`: a non-empty run of
decimal digits. -/
def parseDigits (cs : List Char) : Option Nat :=
  match cs with
  | [] => none
  | _ =>
    cs.foldl
      (fun acc c =>
        acc.bind fun n => if c.isDigit then some (n * 10 + (c.toNat - 48)) else none)
      (some 0)

/-- Python's `int(s)` on an already-stripped string: optional sign followed by
decimal digits; anything else raises `ValueError`, modelled as `none`. -/
def pyInt (s : String) : Option Int :=
  match s.data with
  | '-' :: rest => (parseDigits rest).map (fun n => -(n : Int))
  | '+' :: rest => (parseDigits rest).map (fun n => (n : Int))
  | cs => (parseDigits cs).map (fun n => (n : Int))

/-- Python's `str.strip()`: whitespace removed from both ends. -/
def pyStrip (s : String) : String :=
  ⟨((s.data.dropWhile Char.isWhitespace).reverse.dropWhile Char.isWhitespace).reverse⟩

/-- `LockManager.get_holder_pid`.  The lock file's state is `none` when the
file is absent (`read_text` raises `FileNotFoundError`, caught) and
`some content` otherwise.  The source strips the content, returns `None` for
an empty (falsy) result and otherwise `int(content)`, with `ValueError`
caught to `None`. -/
def get_holder_pid (lockFileContent : Option String) : Option Int :=
  match lockFileContent with
  | none => none
  | some content =>
    let c := pyStrip content
    if c.isEmpty then none else pyInt c

/-- `generate_run_id` in the full randomizer: the UTC second-resolution
timestamp string joined to the `os.urandom(4).hex()` suffix with a dash. -/
def generate_run_id (timestamp : String) (random_suffix : String) : String :=
  timestamp ++ "-" ++ random_suffix

/-- The run id written by `do_run` in the minimal randomizer
(`randomize.py` line 76): the UTC second-resolution timestamp alone, with no
random suffix. -/
def minimal_run_id (timestamp : String) : String :=
  timestamp

/-- The `run_data` dict written by `do_run` in the minimal randomizer. -/
structure MinimalRunData where
  run_id : String
  technique : String
  account : String
  region : String
  started_at : Nat
  cleanup : Bool
deriving DecidableEq, Repr

/-- The construction of `run_data` in `do_run` (`randomize.py` lines 76-90):
the run id is the bare timestamp. -/
def minimal_make_run_data (timestamp technique account region : String)
    (started_at : Nat) (cleanup : Bool) : MinimalRunData :=
  { run_id := minimal_run_id timestamp, technique := technique,
    account := account, region := region, started_at := started_at,
    cleanup := cleanup }

/-- The arguments of the `run` subcommand that the modelled steps read
(`dwell-min`/`dwell-max` only produce a sleep and are omitted). -/
structure Args where
  account : String
  region : String
  mode : String
  tactic : Option String
  allow_repeat : Bool
  avoid_last_n : Nat
deriving Repr

/-- The environment of one `cmd_run` invocation: the outcome of each external
collaborator, the pre-existing filesystem state and the abstract random and
clock sources.  `Except.error e` models the exception (with message `e`)
raised by the corresponding call. -/
structure World where
  /-- `True` when another process holds the flock, so `acquire()` fails. -/
  lockBusy : Bool
  /-- Content of the lock file (`none` when absent), read by
  `get_holder_pid`. -/
  lockFile : Option String
  /-- Result of `get_aws_identity()`: `(account, arn)` or an exception. -/
  identity : Except String (String × String)
  /-- Result of `get_techniques(tactic)`: the parsed catalog or an
  exception. -/
  catalog : Except String (List Technique)
  /-- Result of `run_cmd(["stratus", "warmup", ...])`: `ok` or the
  `RuntimeError` message. -/
  warmupResult : Except String Unit
  /-- Result of `run_cmd(["stratus", "detonate", ...])`. -/
  detonateResult : Except String Unit
  /-- Content of the history file as read by `load_history()`. -/
  history : List String
  /-- Abstract `random.choice` source for `select_technique`. -/
  rand : Nat
  /-- The clock: `clock i` is the value of the `i`-th `now_iso()` call of this
  run (calls are numbered from 0 in program order). -/
  clock : Nat → Nat
  /-- The `strftime` timestamp used by `generate_run_id`. -/
  runTimestamp : String
  /-- The `os.urandom(4).hex()` suffix used by `generate_run_id`. -/
  runSuffix : String

/-- The observable outcome of one `cmd_run` invocation. -/
structure RunOutcome where
  /-- The handler's return value (the process exit code). -/
  exitCode : Nat
  /-- The successive record versions persisted by `run_record.save()`, in
  order. -/
  saves : List RunRecord
  /-- `True` when `lock.acquire()` succeeded. -/
  lockAcquired : Bool
  /-- `True` when `lock.release()` was called. -/
  lockReleased : Bool
  /-- The final content of the history file. -/
  finalHistory : List String
  /-- `some h` when the busy message was printed, reporting holder `h`
  (itself `none` when no PID could be read from the lock file). -/
  reportedHolder : Option (Option Int)

/-- `cmd_run`, translated step by step from the source.  The branches are, in
program order: the busy early-return before the `try` block; inside the
`try`: the identity query (an exception lands in the catch-all with
`run_record` still `None`), the account safety check, the catalog query, the
empty-catalog check, technique selection, creation and save of the STARTED
record, the warmup call (failure saves FAILED and returns 1), the detonate
call (failure saves FAILED and returns 1; success saves DETONATED, or CLEANED
with a `cleaned_at` stamp in VALIDATE mode), and the history update.  The
`finally` block releases the lock on every path that acquired it. -/
def cmd_run (args : Args) (w : World) : RunOutcome :=
  if w.lockBusy then
    { exitCode := 1, saves := [], lockAcquired := false, lockReleased := false,
      finalHistory := w.history, reportedHolder := some (get_holder_pid w.lockFile) }
  else
    match w.identity with
    | .error _ =>
      { exitCode := 1, saves := [], lockAcquired := true, lockReleased := true,
        finalHistory := w.history, reportedHolder := none }
    | .ok (current_account, _arn) =>
      if current_account ≠ args.account then
        { exitCode := 1, saves := [], lockAcquired := true, lockReleased := true,
          finalHistory := w.history, reportedHolder := none }
      else
        match w.catalog with
        | .error _ =>
          { exitCode := 1, saves := [], lockAcquired := true, lockReleased := true,
            finalHistory := w.history, reportedHolder := none }
        | .ok techniques =>
          if techniques.isEmpty then
            { exitCode := 1, saves := [], lockAcquired := true, lockReleased := true,
              finalHistory := w.history, reportedHolder := none }
          else
            match select_technique techniques (!args.allow_repeat)
                args.avoid_last_n w.history w.rand with
            | .error _ =>
              { exitCode := 1, saves := [], lockAcquired := true, lockReleased := true,
                finalHistory := w.history, reportedHolder := none }
            | .ok technique =>
              let rec0 : RunRecord :=
                { run_id := generate_run_id w.runTimestamp w.runSuffix,
                  technique := technique.id,
                  account := current_account,
                  region := args.region,
                  mode := args.mode,
                  tactic_filter := args.tactic,
                  started_at := w.clock 0,
                  status := statusStarted }
              match w.warmupResult with
              | .error e =>
                let recF :=
                  { rec0 with
                    status := statusFailed,
                    error := some ("Warmup failed: " ++ e) }
                { exitCode := 1, saves := [rec0, recF], lockAcquired := true,
                  lockReleased := true, finalHistory := w.history,
                  reportedHolder := none }
              | .ok _ =>
                let rec1 :=
                  { rec0 with
                    warmup_at := some (w.clock 1),
                    status := statusWarmupComplete }
                match w.detonateResult with
                | .error e =>
                  let recF :=
                    { rec1 with
                      status := statusFailed,
                      error := some ("Detonate failed: " ++ e) }
                  { exitCode := 1, saves := [rec0, rec1, recF],
                    lockAcquired := true, lockReleased := true,
                    finalHistory := w.history, reportedHolder := none }
                | .ok _ =>
                  let rec2 :=
                    { rec1 with
                      detonated_at := some (w.clock 2),
                      status := statusDetonated }
                  let rec3 :=
                    if args.mode = modeValidate then
                      { rec2 with
                        cleaned_at := some (w.clock 3),
                        status := statusCleaned }
                    else rec2
                  { exitCode := 0, saves := [rec0, rec1, rec3],
                    lockAcquired := true, lockReleased := true,
                    finalHistory := save_history (w.history ++ [technique.id]) 20,
                    reportedHolder := none }

/-- The sequence of persisted `status` values of a run, in save order. -/
def statusTrace (o : RunOutcome) : List String :=
  o.saves.map (fun r => r.status)

/-- The environment of one `cmd_cleanup` invocation.  `record` is the result
of `RunRecord.load` (`none` for `FileNotFoundError`); the revert and cleanup
invocations run with `check=False`, so they complete with a return code
instead of raising. -/
structure CleanupWorld where
  record : Option RunRecord
  revertReturncode : Int
  cleanupReturncode : Int
  clock : Nat → Nat

/-- The observable outcome of one `cmd_cleanup` invocation. -/
structure CleanupOutcome where
  exitCode : Nat
  /-- The record persisted by `record.save()`, when one was saved. -/
  saved : Option RunRecord
  revertInvoked : Bool
  cleanupInvoked : Bool

/-- `cmd_cleanup`, translated from the source: not-found reports and returns
1; an already-CLEANED record returns 0 untouched; otherwise `stratus revert`
and `stratus cleanup` both run with `check=False` (their return codes are
ignored), then the record is marked CLEANED with a fresh timestamp and
saved. -/
def cmd_cleanup (w : CleanupWorld) : CleanupOutcome :=
  match w.record with
  | none =>
    { exitCode := 1, saved := none, revertInvoked := false, cleanupInvoked := false }
  | some record =>
    if record.status = statusCleaned then
      { exitCode := 0, saved := none, revertInvoked := false, cleanupInvoked := false }
    else
      let record1 :=
        { record with
          cleaned_at := some (w.clock 0),
          status := statusCleaned }
      { exitCode := 0, saved := some record1,
        revertInvoked := true, cleanupInvoked := true }

/-! ## Concrete example inputs used by counterexamples and witnesses -/

/-- A two-technique catalog used in concrete scenarios. -/
def exCatalog : List Technique :=
  [⟨"aws.persistence.iam-backdoor-user", "Backdoor an IAM user"⟩,
   ⟨"aws.exfiltration.ec2-share-ami", "Share an EC2 AMI"⟩]

/-- A `run --mode validate` invocation. -/
def exArgsValidate : Args :=
  { account := "111111111111", region := "us-east-1", mode := modeValidate,
    tactic := none, allow_repeat := false, avoid_last_n := 5 }

/-- A world where the lock is free and every external call succeeds; the
clock hands out `0, 1, 2, 3, ...` to the successive `now_iso()` calls. -/
def exWorldOk : World :=
  { lockBusy := false, lockFile := none,
    identity := .ok ("111111111111", "arn:aws:iam::111111111111:user/trainer"),
    catalog := .ok exCatalog,
    warmupResult := .ok (), detonateResult := .ok (),
    history := [], rand := 0, clock := fun n => n,
    runTimestamp := "20240115T120000Z", runSuffix := "0a1b2c3d" }

/-- A world where another process holds the lock and has written its PID into
the lock file. -/
def exWorldBusy : World :=
  { exWorldOk with lockBusy := true, lockFile := some "4242\n" }

/-- A world where the external warmup invocation fails. -/
def exWorldWarmupFail : World :=
  { exWorldOk with warmupResult := .error "Command failed: stratus warmup" }

/-- A cleanup invocation on a run id whose record file does not exist. -/
def exCleanupNotFound : CleanupWorld :=
  { record := none, revertReturncode := 1, cleanupReturncode := 0,
    clock := fun n => n }

/-! ## Helper lemmas -/

lemma pyChoice_mem {α : Type} (l : List α) (r : Nat) (hne : l ≠ []) :
    ∃ t, pyChoice l r = some t ∧ t ∈ l := by
  have hlen : 0 < l.length := List.length_pos.mpr hne
  have hlt : r % l.length < l.length := Nat.mod_lt _ hlen
  exact ⟨l.get ⟨r % l.length, hlt⟩, by simp [pyChoice, List.get?_eq_get hlt],
    List.get_mem l _ hlt⟩

lemma candidate_techniques_subset (techniques : List Technique) (avoid_recent : Bool)
    (recent_count : Nat) (history : List String) :
    ∀ t, t ∈ candidate_techniques techniques avoid_recent recent_count history →
      t ∈ techniques := by
  intro t ht
  unfold candidate_techniques at ht
  cases avoid_recent with
  | false => simpa using ht
  | true =>
    simp only [if_true] at ht
    split at ht
    · exact ht
    · exact List.mem_of_mem_filter ht

lemma candidate_techniques_ne_nil (techniques : List Technique) (avoid_recent : Bool)
    (recent_count : Nat) (history : List String) (hne : techniques ≠ []) :
    candidate_techniques techniques avoid_recent recent_count history ≠ [] := by
  unfold candidate_techniques
  cases avoid_recent with
  | false => simpa using hne
  | true =>
    simp only [if_true]
    split
    · exact hne
    · next hcs =>
      intro hnil
      rw [hnil] at hcs
      simp at hcs

lemma select_technique_ok (techniques : List Technique) (avoid_recent : Bool)
    (recent_count : Nat) (history : List String) (rand : Nat)
    (hne : techniques ≠ []) :
    ∃ t, select_technique techniques avoid_recent recent_count history rand = .ok t ∧
      t ∈ techniques := by
  have hemp : techniques.isEmpty = false := by
    cases techniques with
    | nil => exact absurd rfl hne
    | cons a l => rfl
  obtain ⟨t, hc, hm⟩ := pyChoice_mem
    (candidate_techniques techniques avoid_recent recent_count history) rand
    (candidate_techniques_ne_nil techniques avoid_recent recent_count history hne)
  refine ⟨t, ?_, candidate_techniques_subset techniques avoid_recent recent_count history t hm⟩
  unfold select_technique
  rw [hemp, hc]
  rfl

lemma string_data_append (a b : String) : (a ++ b).data = a.data ++ b.data := by
  cases a
  cases b
  rfl

lemma generate_run_id_suffix_inj (ts s1 s2 : String)
    (h : generate_run_id ts s1 = generate_run_id ts s2) : s1 = s2 := by
  have hd := congrArg String.data h
  have hd2 : ts.data ++ ("-".data ++ s1.data) = ts.data ++ ("-".data ++ s2.data) := by
    simpa [generate_run_id, string_data_append, List.append_assoc] using hd
  have h3 := List.append_cancel_left (List.append_cancel_left hd2)
  cases s1
  cases s2
  exact congrArg String.mk h3

lemma cmd_run_trace_enum (args : Args) (w : World) :
    statusTrace (cmd_run args w) = [] ∨
    statusTrace (cmd_run args w) = [statusStarted, statusFailed] ∨
    statusTrace (cmd_run args w) = [statusStarted, statusWarmupComplete, statusFailed] ∨
    statusTrace (cmd_run args w) = [statusStarted, statusWarmupComplete, statusDetonated] ∨
    statusTrace (cmd_run args w) = [statusStarted, statusWarmupComplete, statusCleaned] := by
  obtain ⟨lb, lf, idr, cat, wr, dr, hist, rnd, clk, rts, rsf⟩ := w
  cases lb with
  | true => simp [cmd_run, statusTrace]
  | false =>
    cases idr with
    | error e => simp [cmd_run, statusTrace]
    | ok p =>
      obtain ⟨ca, arn⟩ := p
      by_cases hacc : ca ≠ args.account
      · simp [cmd_run, statusTrace, hacc]
      · cases cat with
        | error e => simp [cmd_run, statusTrace, hacc]
        | ok ts =>
          by_cases hts : ts.isEmpty
          · simp [cmd_run, statusTrace, hacc, hts]
          · rcases hsel : select_technique ts (!args.allow_repeat) args.avoid_last_n hist rnd with e | tech
            · simp [cmd_run, statusTrace, hacc, hts, hsel]
            · cases wr with
              | error e => simp [cmd_run, statusTrace, hacc, hts, hsel]
              | ok u =>
                cases dr with
                | error e => simp [cmd_run, statusTrace, hacc, hts, hsel]
                | ok u2 =>
                  by_cases hm : args.mode = modeValidate
                  · simp [cmd_run, statusTrace, hacc, hts, hsel, hm]
                  · simp [cmd_run, statusTrace, hacc, hts, hsel, hm]

lemma cmd_run_trace_validate (args : Args) (w : World)
    (h : statusTrace (cmd_run args w) =
      [statusStarted, statusWarmupComplete, statusCleaned]) :
    args.mode = modeValidate := by
  obtain ⟨lb, lf, idr, cat, wr, dr, hist, rnd, clk, rts, rsf⟩ := w
  cases lb with
  | true => simp [cmd_run, statusTrace, statusStarted] at h
  | false =>
    cases idr with
    | error e => simp [cmd_run, statusTrace] at h
    | ok p =>
      obtain ⟨ca, arn⟩ := p
      by_cases hacc : ca ≠ args.account
      · simp [cmd_run, statusTrace, hacc] at h
      · cases cat with
        | error e => simp [cmd_run, statusTrace, hacc] at h
        | ok ts =>
          by_cases hts : ts.isEmpty
          · simp [cmd_run, statusTrace, hacc, hts] at h
          · rcases hsel : select_technique ts (!args.allow_repeat) args.avoid_last_n hist rnd with e | tech
            · simp [cmd_run, statusTrace, hacc, hts, hsel] at h
            · cases wr with
              | error e =>
                simp [cmd_run, statusTrace, hacc, hts, hsel] at h
              | ok u =>
                cases dr with
                | error e =>
                  simp [cmd_run, statusTrace, hacc, hts, hsel] at h
                  exact absurd h (by decide)
                | ok u2 =>
                  by_cases hm : args.mode = modeValidate
                  · exact hm
                  · simp [cmd_run, statusTrace, hacc, hts, hsel, hm] at h
                    exact absurd h (by decide)

lemma cmd_run_lock_fields (args : Args) (w : World) :
    (cmd_run args w).lockAcquired = !w.lockBusy ∧
    (cmd_run args w).lockReleased = !w.lockBusy := by
  obtain ⟨lb, lf, idr, cat, wr, dr, hist, rnd, clk, rts, rsf⟩ := w
  cases lb with
  | true => simp [cmd_run]
  | false =>
    cases idr with
    | error e => simp [cmd_run]
    | ok p =>
      obtain ⟨ca, arn⟩ := p
      by_cases hacc : ca ≠ args.account
      · simp [cmd_run, hacc]
      · cases cat with
        | error e => simp [cmd_run, hacc]
        | ok ts =>
          by_cases hts : ts.isEmpty
          · simp [cmd_run, hacc, hts]
          · rcases hsel : select_technique ts (!args.allow_repeat) args.avoid_last_n hist rnd with e | tech
            · simp [cmd_run, hacc, hts, hsel]
            · cases wr with
              | error e => simp [cmd_run, hacc, hts, hsel]
              | ok u =>
                cases dr with
                | error e => simp [cmd_run, hacc, hts, hsel]
                | ok u2 => simp [cmd_run, hacc, hts, hsel]

/-! ## Claims -/

/-- C5: for every non-empty technique catalog and any history (including one
in which every catalog entry is recent, where the exclusion is dropped and
selection falls back to the full catalog), `select_technique` returns an
element of the given catalog; for an empty catalog it fails with the
empty-catalog `ValueError`. -/
theorem claim_C5_select_total (techniques : List Technique) (avoid_recent : Bool)
    (recent_count : Nat) (history : List String) (rand : Nat) :
    (techniques = [] →
      select_technique techniques avoid_recent recent_count history rand =
        .error "No techniques available") ∧
    (techniques ≠ [] →
      ∃ t, select_technique techniques avoid_recent recent_count history rand = .ok t ∧
        t ∈ techniques) := by
  constructor
  · intro h
    subst h
    rfl
  · intro h
    exact select_technique_ok techniques avoid_recent recent_count history rand h

/-- C5 witness: with the whole two-technique catalog inside the recent
window, selection still succeeds (fallback to the full catalog). -/
theorem claim_C5_witness :
    (select_technique exCatalog true 5
      ["aws.persistence.iam-backdoor-user", "aws.exfiltration.ec2-share-ami"] 7).isOk
      = true := by
  obtain ⟨t, hsel, hmem⟩ := (claim_C5_select_total exCatalog true 5
    ["aws.persistence.iam-backdoor-user", "aws.exfiltration.ec2-share-ami"] 7).2
    (by decide)
  rw [hsel]
  rfl

/-- C6 counterexample: two `select_technique` calls with identical arguments
(`techniques`, `avoid_recent`, `recent_count`) and an identical random source
return different results when the history file differs, so the selector is
not a function of its arguments plus the random source alone — it also reads
the persisted history state. -/
theorem claim_C6_counterexample :
    select_technique exCatalog true 5 [] 0 ≠
      select_technique exCatalog true 5 ["aws.persistence.iam-backdoor-user"] 0 := by
  decide

/-- C7 counterexample: with `max_size = 0`, Python's `history[-0:]` slice is
the whole list, so `save_history` persists more than `max_size` entries. -/
theorem claim_C7_counterexample :
    (save_history ["aws.persistence.iam-backdoor-user"] 0).length = 1 ∧
    ¬ (save_history ["aws.persistence.iam-backdoor-user"] 0).length ≤ 0 := by
  decide

/-- C7 (amended: for every positive `max_size`): the history persisted by
`save_history` has at most `max_size` entries and is a suffix of the input —
the most recent entries, in their original relative order. -/
theorem claim_C7_history_bound (history : List String) (max_size : Nat)
    (h : 1 ≤ max_size) :
    (save_history history max_size).length ≤ max_size ∧
    save_history history max_size <:+ history := by
  unfold save_history pySliceLast
  have h0 : ¬ max_size = 0 := by omega
  rw [if_neg h0]
  constructor
  · rw [List.length_drop]
    omega
  · exact List.drop_suffix _ _

/-- C7 witness: the bound and suffix property at a concrete history and
`max_size = 2`. -/
theorem claim_C7_witness :
    1 ≤ 2 ∧
    ((save_history ["a", "b", "c"] 2).length ≤ 2 ∧
      save_history ["a", "b", "c"] 2 <:+ ["a", "b", "c"]) :=
  ⟨by decide, claim_C7_history_bound ["a", "b", "c"] 2 (by decide)⟩

/-- C8 counterexample: the minimal randomizer's `do_run` builds the run id
from the bare UTC timestamp with no random suffix, so two runs started within
the same second (here with different techniques) receive the same run id —
the claim's "distinct run_ids" guarantee fails there. -/
theorem claim_C8_counterexample :
    (minimal_make_run_data "20240115T120000Z" "aws.persistence.iam-backdoor-user"
        "111111111111" "us-east-1" 0 false).run_id =
      (minimal_make_run_data "20240115T120000Z" "aws.exfiltration.ec2-share-ami"
        "111111111111" "us-east-1" 0 false).run_id ∧
    minimal_make_run_data "20240115T120000Z" "aws.persistence.iam-backdoor-user"
        "111111111111" "us-east-1" 0 false ≠
      minimal_make_run_data "20240115T120000Z" "aws.exfiltration.ec2-share-ami"
        "111111111111" "us-east-1" 0 false := by
  decide

/-- C8 (amended: in the full randomizer only): `generate_run_id` joins the
UTC timestamp and the random suffix, so two runs in the same second with
distinct random suffixes receive distinct run ids.  The minimal randomizer
uses the bare timestamp and collides within a second. -/
theorem claim_C8_run_id_distinct (timestamp s1 s2 : String) (h : s1 ≠ s2) :
    generate_run_id timestamp s1 ≠ generate_run_id timestamp s2 := by
  intro he
  exact h (generate_run_id_suffix_inj timestamp s1 s2 he)

/-- C8 witness: distinct suffixes in the same second give distinct run ids. -/
theorem claim_C8_witness :
    generate_run_id "20240115T120000Z" "0a1b2c3d" ≠
      generate_run_id "20240115T120000Z" "ffffffff" :=
  claim_C8_run_id_distinct "20240115T120000Z" "0a1b2c3d" "ffffffff" (by decide)

/-- C9: `cmd_cleanup` on a missing run id fails without touching any record;
on an already-CLEANED record it no-ops successfully; otherwise it invokes
revert and then cleanup regardless of either invocation's return code (both
best-effort), marks the record CLEANED with a fresh timestamp, saves it and
succeeds. -/
theorem claim_C9_cleanup_behavior (w : CleanupWorld) :
    (w.record = none →
      cmd_cleanup w =
        { exitCode := 1, saved := none, revertInvoked := false,
          cleanupInvoked := false }) ∧
    (∀ r, w.record = some r → r.status = statusCleaned →
      cmd_cleanup w =
        { exitCode := 0, saved := none, revertInvoked := false,
          cleanupInvoked := false }) ∧
    (∀ r, w.record = some r → r.status ≠ statusCleaned →
      (cmd_cleanup w).revertInvoked = true ∧
      (cmd_cleanup w).cleanupInvoked = true ∧
      (cmd_cleanup w).exitCode = 0 ∧
      (cmd_cleanup w).saved =
        some { r with cleaned_at := some (w.clock 0), status := statusCleaned }) := by
  obtain ⟨rc, rv, cu, clk⟩ := w
  refine ⟨?_, ?_, ?_⟩
  · intro h
    simp only at h
    subst h
    rfl
  · intro r hr hs
    simp only at hr
    subst hr
    simp [cmd_cleanup, hs]
  · intro r hr hs
    simp only at hr
    subst hr
    simp [cmd_cleanup, hs]

/-- C9 witness: cleanup of a missing run id returns failure with no record
modified and no external invocation. -/
theorem claim_C9_witness :
    cmd_cleanup exCleanupNotFound =
      { exitCode := 1, saved := none, revertInvoked := false,
        cleanupInvoked := false } :=
  (claim_C9_cleanup_behavior exCleanupNotFound).1 rfl

/-- C10: `get_holder_pid` is total at the public interface: an absent lock
file, an all-whitespace or empty content, or content that does not parse as
an integer all yield `none` rather than an exception, and it returns a PID
exactly when the stripped content parses as an integer. -/
theorem claim_C10_get_holder_pid_total :
    get_holder_pid none = none ∧
    (∀ s, (pyStrip s).isEmpty = true → get_holder_pid (some s) = none) ∧
    (∀ s, pyInt (pyStrip s) = none → get_holder_pid (some s) = none) ∧
    (∀ s n, (pyStrip s).isEmpty = false → pyInt (pyStrip s) = some n →
      get_holder_pid (some s) = some n) ∧
    (∀ s n, get_holder_pid (some s) = some n → pyInt (pyStrip s) = some n) := by
  refine ⟨rfl, ?_, ?_, ?_, ?_⟩
  · intro s h
    simp [get_holder_pid, h]
  · intro s h
    by_cases he : (pyStrip s).isEmpty = true
    · simp [get_holder_pid, he]
    · simp [get_holder_pid, he, h]
  · intro s n he hp
    simp [get_holder_pid, he, hp]
  · intro s n h
    by_cases he : (pyStrip s).isEmpty = true
    · simp [get_holder_pid, he] at h
    · simpa [get_holder_pid, he] using h

/-- C10 witness: a lock file holding a PID with surrounding whitespace parses
to that PID. -/
theorem claim_C10_witness :
    get_holder_pid (some " 4242\n") = some 4242 :=
  claim_C10_get_holder_pid_total.2.2.2.1 " 4242\n" 4242 (by decide) (by decide)

/-- C1 counterexample: a VALIDATE-mode run in which every external call
succeeds persists the status sequence
`[started, warmup_complete, cleaned]` — DETONATED is overwritten by CLEANED
in memory before the save, so the persisted sequence is not a prefix of
`[started, warmup_complete, detonated, cleaned]` and does not end in
FAILED. -/
theorem claim_C1_counterexample :
    statusTrace (cmd_run exArgsValidate exWorldOk) =
      [statusStarted, statusWarmupComplete, statusCleaned] ∧
    statusTrace (cmd_run exArgsValidate exWorldOk) ∉
      [([] : List String), [statusStarted], [statusStarted, statusWarmupComplete],
        [statusStarted, statusWarmupComplete, statusDetonated],
        [statusStarted, statusWarmupComplete, statusDetonated, statusCleaned]] ∧
    (statusTrace (cmd_run exArgsValidate exWorldOk)).getLast? ≠ some statusFailed := by
  decide

/-- C1 (amended): every persisted status sequence of a run is one of `[]`,
`[started, failed]`, `[started, warmup_complete, failed]`,
`[started, warmup_complete, detonated]` (TRAIN success; CLEANED is added
later by the cleanup command) or `[started, warmup_complete, cleaned]`
(VALIDATE success, where DETONATED is collapsed into the CLEANED save).  So
FAILED appears only immediately after STARTED or WARMUP_COMPLETE and never
after CLEANED, and a sequence ending in CLEANED occurs only in VALIDATE
mode. -/
theorem claim_C1_status_machine (args : Args) (w : World) :
    (statusTrace (cmd_run args w) = [] ∨
      statusTrace (cmd_run args w) = [statusStarted, statusFailed] ∨
      statusTrace (cmd_run args w) =
        [statusStarted, statusWarmupComplete, statusFailed] ∨
      statusTrace (cmd_run args w) =
        [statusStarted, statusWarmupComplete, statusDetonated] ∨
      statusTrace (cmd_run args w) =
        [statusStarted, statusWarmupComplete, statusCleaned]) ∧
    (statusTrace (cmd_run args w) =
        [statusStarted, statusWarmupComplete, statusCleaned] →
      args.mode = modeValidate) :=
  ⟨cmd_run_trace_enum args w, cmd_run_trace_validate args w⟩

/-- C1 witness: the fully successful VALIDATE run realises the collapsed
`[started, warmup_complete, cleaned]` sequence, and the theorem recovers its
mode. -/
theorem claim_C1_witness : exArgsValidate.mode = modeValidate :=
  (claim_C1_status_machine exArgsValidate exWorldOk).2 (by decide)

/-- C2 counterexample: in a successful VALIDATE run under the strictly
increasing clock `fun n => n`, the final record is CLEANED but
`cleaned_at = 3` while `detonated_at = 2`: the two fields come from two
separate `now_iso()` calls, so they are not equal. -/
theorem claim_C2_counterexample :
    ((cmd_run exArgsValidate exWorldOk).saves.getLast?).map
        (fun r => (r.status, r.detonated_at, r.cleaned_at)) =
      some (statusCleaned, some 2, some 3) ∧
    (some 3 : Option Nat) ≠ some 2 := by
  decide

/-- C2 (amended): a VALIDATE run whose detonation succeeds ends with exit
code 0 and a final persisted record with status CLEANED, whose
`detonated_at` is the third clock reading and whose `cleaned_at` is the
fourth — the reading taken immediately after detonation completion, equal to
`detonated_at` only when the clock reports the same value twice. -/
theorem claim_C2_validate_final (args : Args) (w : World) (arn : String)
    (ts : List Technique)
    (hb : w.lockBusy = false)
    (hid : w.identity = .ok (args.account, arn))
    (hcat : w.catalog = .ok ts) (hts : ts ≠ [])
    (hw : w.warmupResult = .ok ())
    (hd : w.detonateResult = .ok ())
    (hm : args.mode = modeValidate) :
    (cmd_run args w).exitCode = 0 ∧
    ((cmd_run args w).saves.getLast?).map
        (fun r => (r.status, r.detonated_at, r.cleaned_at)) =
      some (statusCleaned, some (w.clock 2), some (w.clock 3)) := by
  obtain ⟨lb, lf, idr, cat, wr, dr, hist, rnd, clk, rts, rsf⟩ := w
  simp only at hb hid hcat hw hd ⊢
  subst hb hid hcat hw hd
  obtain ⟨tech, hsel, hmem⟩ :=
    select_technique_ok ts (!args.allow_repeat) args.avoid_last_n hist rnd hts
  have hemp : ts.isEmpty = false := by
    cases ts with
    | nil => exact absurd rfl hts
    | cons a l => rfl
  simp [cmd_run, hemp, hsel, hm]

/-- C2 witness: the amended statement at the concrete successful VALIDATE
run. -/
theorem claim_C2_witness :
    (cmd_run exArgsValidate exWorldOk).exitCode = 0 ∧
    ((cmd_run exArgsValidate exWorldOk).saves.getLast?).map
        (fun r => (r.status, r.detonated_at, r.cleaned_at)) =
      some (statusCleaned, some (exWorldOk.clock 2), some (exWorldOk.clock 3)) :=
  claim_C2_validate_final exArgsValidate exWorldOk
    "arn:aws:iam::111111111111:user/trainer" exCatalog
    rfl rfl rfl (by decide) rfl rfl rfl

/-- C3: when another holder owns the lock, `cmd_run` acquires nothing,
creates no record, reports the holder's PID as read from the lock file, and
exits with the busy failure code 1. -/
theorem claim_C3_busy_no_record (args : Args) (w : World) (p : Int)
    (hb : w.lockBusy = true) (hp : get_holder_pid w.lockFile = some p) :
    (cmd_run args w).exitCode = 1 ∧
    (cmd_run args w).saves = [] ∧
    (cmd_run args w).lockAcquired = false ∧
    (cmd_run args w).reportedHolder = some (some p) := by
  obtain ⟨lb, lf, idr, cat, wr, dr, hist, rnd, clk, rts, rsf⟩ := w
  simp only at hb hp ⊢
  subst hb
  simp [cmd_run, hp]

/-- C3 witness: a busy lock whose file records PID 4242. -/
theorem claim_C3_witness :
    (cmd_run exArgsValidate exWorldBusy).exitCode = 1 ∧
    (cmd_run exArgsValidate exWorldBusy).saves = [] ∧
    (cmd_run exArgsValidate exWorldBusy).lockAcquired = false ∧
    (cmd_run exArgsValidate exWorldBusy).reportedHolder = some (some 4242) :=
  claim_C3_busy_no_record exArgsValidate exWorldBusy 4242 rfl (by decide)

/-- C4: when the warmup invocation fails, the run exits 1 and the last
persisted record has status FAILED with `error` carrying the warmup failure
description, and the lock is released; moreover on every `cmd_run` path that
acquired the lock, the lock is released. -/
theorem claim_C4_warmup_failure (args : Args) (w : World) (arn : String)
    (ts : List Technique) (e : String)
    (hb : w.lockBusy = false)
    (hid : w.identity = .ok (args.account, arn))
    (hcat : w.catalog = .ok ts) (hts : ts ≠ [])
    (hw : w.warmupResult = .error e) :
    (cmd_run args w).exitCode = 1 ∧
    ((cmd_run args w).saves.getLast?).map (fun r => (r.status, r.error)) =
      some (statusFailed, some ("Warmup failed: " ++ e)) ∧
    (cmd_run args w).lockReleased = true ∧
    (∀ a2 w2, (cmd_run a2 w2).lockAcquired = true →
      (cmd_run a2 w2).lockReleased = true) := by
  have hrel : ∀ a2 w2, (cmd_run a2 w2).lockAcquired = true →
      (cmd_run a2 w2).lockReleased = true := by
    intro a2 w2 hacq
    obtain ⟨h1, h2⟩ := cmd_run_lock_fields a2 w2
    rw [hacq] at h1
    rw [h2, ← h1]
  obtain ⟨lb, lf, idr, cat, wr, dr, hist, rnd, clk, rts, rsf⟩ := w
  simp only at hb hid hcat hw
  subst hb hid hcat hw
  obtain ⟨tech, hsel, hmem⟩ :=
    select_technique_ok ts (!args.allow_repeat) args.avoid_last_n hist rnd hts
  have hemp : ts.isEmpty = false := by
    cases ts with
    | nil => exact absurd rfl hts
    | cons a l => rfl
  refine ⟨?_, ?_, ?_, hrel⟩ <;> simp [cmd_run, hemp, hsel]

/-- C4 witness: the warmup-failure scenario at a concrete world. -/
theorem claim_C4_witness :
    (cmd_run exArgsValidate exWorldWarmupFail).exitCode = 1 ∧
    ((cmd_run exArgsValidate exWorldWarmupFail).saves.getLast?).map
        (fun r => (r.status, r.error)) =
      some (statusFailed,
        some ("Warmup failed: " ++ "Command failed: stratus warmup")) ∧
    (cmd_run exArgsValidate exWorldWarmupFail).lockReleased = true := by
  have h := claim_C4_warmup_failure exArgsValidate exWorldWarmupFail
    "arn:aws:iam::111111111111:user/trainer" exCatalog
    "Command failed: stratus warmup" rfl rfl rfl (by decide) rfl
  exact ⟨h.1, h.2.1, h.2.2.1⟩

/-- C6 (amended): the selector is a pure function of its arguments, the
random source and the history-file state it reads via `load_history` — and
it performs no writes: the history file is unchanged on every path of
`cmd_run` that does not fully succeed, and is updated (by the orchestrator,
appending the selected technique and truncating to 20) only after a fully
successful run. -/
theorem claim_C6_history_isolation (args : Args) (w : World) :
    ((cmd_run args w).exitCode ≠ 0 → (cmd_run args w).finalHistory = w.history) ∧
    ((cmd_run args w).exitCode = 0 →
      ∃ tid, (cmd_run args w).finalHistory = save_history (w.history ++ [tid]) 20) := by
  obtain ⟨lb, lf, idr, cat, wr, dr, hist, rnd, clk, rts, rsf⟩ := w
  cases lb with
  | true => simp [cmd_run]
  | false =>
    cases idr with
    | error e => simp [cmd_run]
    | ok p =>
      obtain ⟨ca, arn⟩ := p
      by_cases hacc : ca ≠ args.account
      · simp [cmd_run, hacc]
      · cases cat with
        | error e => simp [cmd_run, hacc]
        | ok ts =>
          by_cases hts : ts.isEmpty
          · simp [cmd_run, hacc, hts]
          · rcases hsel : select_technique ts (!args.allow_repeat) args.avoid_last_n hist rnd with e | tech
            · simp [cmd_run, hacc, hts, hsel]
            · cases wr with
              | error e => simp [cmd_run, hacc, hts, hsel]
              | ok u =>
                cases dr with
                | error e => simp [cmd_run, hacc, hts, hsel]
                | ok u2 =>
                  refine ⟨?_, fun _ => ⟨tech.id, ?_⟩⟩ <;>
                    simp [cmd_run, hacc, hts, hsel]

/-- C6 witness: a run that fails (busy lock) leaves the history file
untouched. -/
theorem claim_C6_witness :
    (cmd_run exArgsValidate exWorldBusy).finalHistory = exWorldBusy.history :=
  (claim_C6_history_isolation exArgsValidate exWorldBusy).1 (by decide)

end Stratus
